import Mathlib

/-!
Verification of the MetaTrader MCP client layer.

Shallow embedding of:
- `src/MetaTraderMCPServer/client/types.py` (enumeration layer: `OrderType`,
  `TradeAction`),
- `src/MetaTraderMCPServer/client/functions/send_order.py` (`send_order`),
- `src/MetaTraderMCPServer/client/order/close_all_profittable_positions.py`,
- `src/MetaTraderMCPServer/client/orders.py` (`MT5Orders._getPositions`).

Numeric trade quantities (volume, price, stop-loss, take-profit, bid, ask,
profit) are embedded as rationals; the comparisons the code performs on them
are order comparisons which agree between IEEE doubles at the values of
interest and the rationals used here.  The MetaTrader terminal is an external
collaborator: its observable answers (symbol lookup count, symbol selection
success, quote, last-error channel, position collections) are passed in as an
explicit environment, and the requests handed to `mt5.order_send` /
`mt5.positions_get` are returned as an explicit trace so that "no gateway
call occurs" is a provable statement.
-/

namespace MT5

/-- The action kinds of a trade request (`TradeRequestActions`, whose numeric
codes appear in `types.py` as `TradeAction`). -/
inductive TradeRequestActions where
  | DEAL
  | PENDING
  | SLTP
  | MODIFY
  | REMOVE
  | CLOSE_BY
  deriving DecidableEq, Repr

/-- Numeric protocol codes of the action kinds, from `TradeAction` in
`types.py` (DEAL = 1, PENDING = 5, SLTP = 6, MODIFY = 7, REMOVE = 8,
CLOSE_BY = 10). -/
def TradeRequestActions.value : TradeRequestActions → Int
  | .DEAL => 1
  | .PENDING => 5
  | .SLTP => 6
  | .MODIFY => 7
  | .REMOVE => 8
  | .CLOSE_BY => 10

/-- Canonical member names of the action enumeration. -/
def TradeRequestActions.memberName : TradeRequestActions → String
  | .DEAL => "DEAL"
  | .PENDING => "PENDING"
  | .SLTP => "SLTP"
  | .MODIFY => "MODIFY"
  | .REMOVE => "REMOVE"
  | .CLOSE_BY => "CLOSE_BY"

/-- Members of the action enumeration in declaration order. -/
def TradeRequestActions.members : List TradeRequestActions :=
  [.DEAL, .PENDING, .SLTP, .MODIFY, .REMOVE, .CLOSE_BY]

/-- `OrderType` enumeration members from `types.py`. -/
inductive OrderType where
  | BUY
  | SELL
  | BUY_LIMIT
  | SELL_LIMIT
  | BUY_STOP
  | SELL_STOP
  | BUY_STOP_LIMIT
  | SELL_STOP_LIMIT
  | CLOSE_BY
  deriving DecidableEq, Repr

/-- Numeric codes bound to the `OrderType` members (`BUY = 0` ...
`CLOSE_BY = 8`). -/
def OrderType.value : OrderType → Int
  | .BUY => 0
  | .SELL => 1
  | .BUY_LIMIT => 2
  | .SELL_LIMIT => 3
  | .BUY_STOP => 4
  | .SELL_STOP => 5
  | .BUY_STOP_LIMIT => 6
  | .SELL_STOP_LIMIT => 7
  | .CLOSE_BY => 8

/-- Canonical member names of `OrderType`. -/
def OrderType.memberName : OrderType → String
  | .BUY => "BUY"
  | .SELL => "SELL"
  | .BUY_LIMIT => "BUY_LIMIT"
  | .SELL_LIMIT => "SELL_LIMIT"
  | .BUY_STOP => "BUY_STOP"
  | .SELL_STOP => "SELL_STOP"
  | .BUY_STOP_LIMIT => "BUY_STOP_LIMIT"
  | .SELL_STOP_LIMIT => "SELL_STOP_LIMIT"
  | .CLOSE_BY => "CLOSE_BY"

/-- Members of `OrderType` in declaration order (`for order_type in cls`
iterates in this order). -/
def OrderType.members : List OrderType :=
  [.BUY, .SELL, .BUY_LIMIT, .SELL_LIMIT, .BUY_STOP, .SELL_STOP,
   .BUY_STOP_LIMIT, .SELL_STOP_LIMIT, .CLOSE_BY]

/-- A loosely-typed Python argument as it reaches the enumeration layer:
a string, an int, an already-typed member of one of the two enums, `None`,
or any other object (no `.upper` attribute, not an enum member). -/
inductive PyVal where
  | str (s : String)
  | intv (n : Int)
  | otype (t : OrderType)
  | action (a : TradeRequestActions)
  | noneV
  deriving DecidableEq, Repr

/-- `OrderType.to_string` from `types.py`: scan the members in declaration
order for one whose value equals `code` and return its name; otherwise
`default or f"UNKNOWN_{code}"` (so a `None` default, and also an empty-string
default, both fall back to the tagged label). -/
def OrderType.to_string (code : Int) (default : Option String) : String :=
  match OrderType.members.find? (fun t => t.value == code) with
  | some t => t.memberName
  | none =>
    match default with
    | some s => if s = "" then "UNKNOWN_" ++ toString code else s
    | none => "UNKNOWN_" ++ toString code

/-- Python's `str.upper`, character by character; it agrees with CPython on
the ASCII strings the enumeration layer deals in. -/
def pyUpper (s : String) : String :=
  ⟨s.data.map Char.toUpper⟩

/-- `OrderType.to_code` from `types.py`: `cls[name.upper()].value` guarded by
`except (KeyError, AttributeError): return default`.  A non-string argument
has no `.upper` (AttributeError); an unknown upper-cased name is a KeyError;
both yield `default`, which is `None` when omitted. -/
def OrderType.to_code (nm : PyVal) (default : Option Int) : Option Int :=
  match nm with
  | .str s =>
    match OrderType.members.find? (fun t => t.memberName == pyUpper s) with
    | some t => some t.value
    | none => default
  | _ => default

/-- `OrderType.exists` from `types.py`: an int key is looked up among the
member values, a string key among the upper-cased member names; any other
key is not a member. -/
def OrderType.existsKey (key : PyVal) : Bool :=
  match key with
  | .intv n => OrderType.members.any (fun t => t.value == n)
  | .str s => OrderType.members.any (fun t => t.memberName == pyUpper s)
  | _ => false

/-- Python errors that the embedded code can raise. -/
inductive PyErr where
  | nameError (n : String)
  | invalidEnumValue (msg : String)
  deriving DecidableEq, Repr

/-- The result of a call that may raise: either a normal value or a raised
error that propagates to the caller. -/
inductive VResult (α : Type) where
  | ok (a : α)
  | err (e : PyErr)
  deriving DecidableEq, Repr

/-- Modelled from the spec: `TradeRequestActions.validate`, invoked by
`send_order`, is absent from the source tree (the `TradeRequestActions`
class itself does not appear in `types.py`; only its numeric codes do, as
`TradeAction`).  Per spec §4.1 the validation entry point accepts a name
(case-insensitively), a code, or an already-typed enum value, returns the
canonical typed value, and fails with an `InvalidEnumValue` error when the
input matches none of the known names or codes. -/
def TradeRequestActions.validate (v : PyVal) : VResult TradeRequestActions :=
  match v with
  | .action a => .ok a
  | .intv n =>
    match TradeRequestActions.members.find? (fun a => a.value == n) with
    | some a => .ok a
    | none => .err (.invalidEnumValue "invalid action")
  | .str s =>
    match TradeRequestActions.members.find? (fun a => a.memberName == pyUpper s) with
    | some a => .ok a
    | none => .err (.invalidEnumValue "invalid action")
  | _ => .err (.invalidEnumValue "invalid action")

/-- Modelled from the spec: `OrderType.validate`, invoked by `send_order`, is
absent from the `OrderType` class in `types.py` (which only defines
`to_string`, `to_code` and `exists`).  Per spec §4.1 it accepts a name
(case-insensitively), a code, or an already-typed enum value, returns the
canonical typed value, and fails with an `InvalidEnumValue` error
otherwise. -/
def OrderType.validate (v : PyVal) : VResult OrderType :=
  match v with
  | .otype t => .ok t
  | .intv n =>
    match OrderType.members.find? (fun t => t.value == n) with
    | some t => .ok t
    | none => .err (.invalidEnumValue "invalid order type")
  | .str s =>
    match OrderType.members.find? (fun t => t.memberName == pyUpper s) with
    | some t => .ok t
    | none => .err (.invalidEnumValue "invalid order type")
  | _ => .err (.invalidEnumValue "invalid order type")

/-! ### `send_order` (`functions/send_order.py`) -/

/-- A live quote as returned by `mt5.symbol_info_tick`. -/
structure Tick where
  bid : ℚ
  ask : ℚ
  deriving DecidableEq, Repr

/-- The terminal gateway's observable answers during one `send_order` call:
how many symbols `market.get_symbols(symbol)` matches, whether
`mt5.symbol_select` succeeds, what `mt5.symbol_info_tick` returns, and the
`mt5.last_error()` pair read after `mt5.order_send`. -/
structure Env where
  symbolsCount : Nat
  selectOk : Bool
  tick : Option Tick
  lastErrorCode : Int
  lastErrorDescr : String
  deriving DecidableEq, Repr

/-- The request dictionary handed to `mt5.order_send` (the fields the code
puts in it). -/
structure Request where
  action : TradeRequestActions
  symbol : String
  volume : ℚ
  otype : OrderType
  price : ℚ
  sl : ℚ
  tp : ℚ
  deviation : Int
  comment : String
  type_time : Int
  type_filling : Int
  deriving DecidableEq, Repr

/-- The dictionary `send_order` returns.  The early-return dictionaries carry
`success` and `message`; the final fall-through dictionary instead carries
`return_code` and `return_message` (and no `message`). -/
structure Outcome where
  success : Bool
  message : Option String := none
  return_code : Option Int := none
  return_message : Option String := none
  deriving DecidableEq, Repr

/-- What a `send_order` call does from the caller's point of view: either it
returns a dictionary or a Python error propagates out of it. -/
inductive PyResult where
  | returned (o : Outcome)
  | raised (e : PyErr)
  deriving DecidableEq, Repr

/-- Result of one `send_order` call together with the trace of requests that
were handed to `mt5.order_send`. -/
structure SendResult where
  outcome : PyResult
  sends : List Request
  deriving DecidableEq, Repr

/-- An early-return rejection dictionary `{ "success": False, "message": m }`. -/
def reject (m : String) : Outcome :=
  { success := false, message := some m }

/-- A `SendResult` that returns without any `mt5.order_send` call. -/
def noSend (o : Outcome) : SendResult :=
  { outcome := .returned o, sends := [] }

/-- The outcome computed right after `mt5.order_send`: a negative
`mt5.last_error()` code gives `f"Error {code}: {description}"`, otherwise
success with "Order sent successfully". -/
def submitOutcome (env : Env) : Outcome :=
  if env.lastErrorCode < 0 then
    reject ("Error " ++ toString env.lastErrorCode ++ ": " ++ env.lastErrorDescr)
  else
    { success := true, message := some "Order sent successfully" }

/-- The fall-through dictionary at the end of `send_order` (reached by the
SLTP/MODIFY/CLOSE_BY cases and by any action without a `match` case). -/
def unknownErrorOutcome : Outcome :=
  { success := false, return_code := some (-1), return_message := some "Unknown error" }

/-- The action dispatch of `send_order` (the `match action:` statement),
reached once every validation step has passed.  The DEAL branch builds its
request dictionary from the names `sl` and `tp`, which are bound nowhere in
the function (its parameters are `stop_loss` and `take_profit`), so
evaluating the dictionary literal raises `NameError` before `mt5.order_send`
is reached. -/
def send_order_dispatch (env : Env) (action : TradeRequestActions) (symbol : String)
    (volume : ℚ) (order_type : OrderType) (price stop_loss take_profit : ℚ)
    (deviation : Int) (comment : String) (hasExpiration : Bool) : SendResult :=
  let comment := if comment = "" then "MCP" else comment
  match action with
  | .DEAL =>
    if order_type ∉ [OrderType.BUY, OrderType.SELL] then
      noSend (reject "Invalid order type, must be BUY or SELL")
    else
      { outcome := .raised (.nameError "sl"), sends := [] }
  | .PENDING =>
    if order_type ∉ [OrderType.BUY_LIMIT, OrderType.SELL_LIMIT,
        OrderType.BUY_STOP, OrderType.SELL_STOP] then
      noSend (reject "Invalid order type, must be BUY_LIMIT, SELL_LIMIT, BUY_STOP, or SELL_STOP")
    else
      let req : Request :=
        { action := .PENDING, symbol := symbol, volume := volume,
          otype := order_type, price := price, sl := stop_loss,
          tp := take_profit, deviation := deviation, comment := comment,
          type_time := if hasExpiration then 2 else 0,
          type_filling := 0 }
      let submit : SendResult := { outcome := .returned (submitOutcome env), sends := [req] }
      match env.tick with
      | some t =>
        match order_type with
        | .BUY_LIMIT =>
          if price > t.ask then
            noSend (reject "Invalid price, must be above current ask")
          else submit
        | .SELL_LIMIT =>
          if price < t.bid then
            noSend (reject "Invalid price, must be below current bid")
          else submit
        | .BUY_STOP =>
          if price < t.ask then
            noSend (reject "Invalid price, must be above current ask")
          else submit
        | .SELL_STOP =>
          if price > t.bid then
            noSend (reject "Invalid price, must be below current bid")
          else submit
        | _ => submit
      | none => submit
  | _ => noSend unknownErrorOutcome

/-- `send_order` from `functions/send_order.py`, after `action` and
`order_type` have been canonicalized: symbol lookup, symbol selection,
volume range check, direction-aware stop-loss/take-profit ordering check
(applied unconditionally, zero values included), then the action dispatch. -/
def send_order (env : Env) (action : TradeRequestActions) (symbol : String)
    (volume : ℚ) (order_type : OrderType) (price stop_loss take_profit : ℚ)
    (deviation : Int) (comment : String) (hasExpiration : Bool) : SendResult :=
  if env.symbolsCount = 0 then
    noSend (reject "Invalid symbol")
  else if env.selectOk = false then
    noSend (reject ("Failed to select " ++ symbol))
  else if volume ≤ 0 ∨ volume > 100 then
    noSend (reject "Invalid volume")
  else if order_type ∈ [OrderType.BUY, OrderType.BUY_LIMIT, OrderType.BUY_STOP] then
    if stop_loss ≥ price then
      noSend (reject "Stop loss must be below the price")
    else if take_profit ≤ price then
      noSend (reject "Take profit must be above the price")
    else if stop_loss > take_profit then
      noSend (reject "Stop loss must be below the take profit")
    else
      send_order_dispatch env action symbol volume order_type price stop_loss
        take_profit deviation comment hasExpiration
  else if order_type ∈ [OrderType.SELL, OrderType.SELL_LIMIT, OrderType.SELL_STOP] then
    if stop_loss ≤ price then
      noSend (reject "Stop loss must be above the price")
    else if take_profit ≥ price then
      noSend (reject "Take profit must be below the price")
    else if stop_loss < take_profit then
      noSend (reject "Stop loss must be above the take profit")
    else
      send_order_dispatch env action symbol volume order_type price stop_loss
        take_profit deviation comment hasExpiration
  else
    send_order_dispatch env action symbol volume order_type price stop_loss
      take_profit deviation comment hasExpiration

/-- `send_order` including its first two lines, the canonicalization of
`action` and `order_type`.  The two `validate` calls are not wrapped in any
`try`/`except`, so a failure there propagates to the caller as a raised
error and nothing further runs. -/
def send_order_full (env : Env) (action : PyVal) (symbol : String) (volume : ℚ)
    (order_type : PyVal) (price stop_loss take_profit : ℚ) (deviation : Int)
    (comment : String) (hasExpiration : Bool) : SendResult :=
  match TradeRequestActions.validate action with
  | .err e => { outcome := .raised e, sends := [] }
  | .ok a =>
    match OrderType.validate order_type with
    | .err e => { outcome := .raised e, sends := [] }
    | .ok t =>
      send_order env a symbol volume t price stop_loss take_profit deviation
        comment hasExpiration

/-! ### `close_all_profittable_positions`
(`order/close_all_profittable_positions.py`) -/

/-- The two columns of the positions frame that
`close_all_profittable_positions` reads: the `id` used for closing and the
current `profit`. -/
structure Position where
  id : Nat
  profit : ℚ
  deriving DecidableEq, Repr

/-- The summary dictionary the aggregate operation returns. -/
structure AggOutcome where
  error : Bool
  message : String
  deriving DecidableEq, Repr

/-- `close_all_profittable_positions`: filter the fetched positions by
`profit >= 0`, call `close_position` once per retained row (its return value
is discarded, which is why the `closeOk` oracle standing in for those return
values is never consulted), increment `count` on every iteration, and return
`error = False` with the `f"Close {count} profittable positions success"`
message.  The second component is the list of `close_position` calls made,
in order. -/
def close_all_profittable_positions (_closeOk : Nat → Bool)
    (positions : List Position) : AggOutcome × List Nat :=
  let retained := positions.filter (fun p => p.profit ≥ 0)
  let calls := retained.map (fun p => p.id)
  let count := calls.length
  ({ error := false,
     message := "Close " ++ toString count ++ " profittable positions success" },
   calls)

/-! ### `MT5Orders._getPositions` (`orders.py`) -/

/-- A row of the converted positions frame, with the fields `_getPositions`
itself touches (`convert_positions_to_dataframe` is an external helper; rows
are taken as already converted). -/
structure PositionRow where
  ticket : Nat
  type_code : Int
  deriving DecidableEq, Repr

/-- The gateway calls `_getPositions` can make through `mt5.positions_get`. -/
inductive GatewayQuery where
  | byTicket (n : Int)
  | bySymbol (s : String)
  | byGroup (s : String)
  | allPositions
  deriving DecidableEq, Repr

/-- The terminal gateway's observable answers during one `_getPositions`
call: how many symbols `market.get_symbols` matches for a pattern, and the
collections `mt5.positions_get` returns for each filter (with `none` for a
gateway that returns no collection). -/
structure QueryEnv where
  symbolsCount : String → Nat
  posByTicket : Int → Option (List PositionRow)
  posBySymbol : String → Option (List PositionRow)
  posByGroup : String → Option (List PositionRow)
  posAll : Option (List PositionRow)

/-- A ticket argument may arrive as an int or as text. -/
inductive TicketArg where
  | intv (n : Int)
  | strv (s : String)
  deriving DecidableEq, Repr

/-- Python truthiness of an optional string (`if symbol_name:`): `None` and
the empty string are falsy. -/
def strTruthy : Option String → Bool
  | some s => !(s == "")
  | none => false

/-- The `type_code` the order-type filter compares against: a string is sent
through `OrderType.to_code` (which can come back `None`), a typed member
contributes its value, an int passes through, and anything else is an object
no row's integer `type_code` equals. -/
def orderTypeFilterCode : PyVal → Option Int
  | .str s => OrderType.to_code (.str s) none
  | .otype t => some t.value
  | .intv n => some n
  | _ => none

/-- `MT5Orders._getPositions`: when `ticket` is supplied, a truthy
`symbol_name` must match exactly one symbol and a truthy `group` at least
one, otherwise an empty frame is returned at once; then the collection is
fetched by the first defined filter (ticket, else symbol, else group, else
all), a string ticket being converted with `int(...)` and a non-numeric one
yielding an empty frame; finally an optional order-type filter retains the
rows whose `type_code` matches.  The second component is the trace of
`mt5.positions_get` calls. -/
def getPositions (env : QueryEnv) (ticket : Option TicketArg)
    (symbol_name : Option String) (group : Option String)
    (order_type : Option PyVal) : List PositionRow × List GatewayQuery :=
  if ticket.isSome ∧ strTruthy symbol_name ∧
      env.symbolsCount (symbol_name.getD "") ≠ 1 then
    ([], [])
  else if ticket.isSome ∧ strTruthy group ∧
      env.symbolsCount (group.getD "") = 0 then
    ([], [])
  else
    let fetched : Option (List PositionRow) × List GatewayQuery :=
      match ticket with
      | some (.strv s) =>
        match s.toInt? with
        | none => (none, [])
        | some n => (env.posByTicket n, [.byTicket n])
      | some (.intv n) => (env.posByTicket n, [.byTicket n])
      | none =>
        match symbol_name with
        | some s => (env.posBySymbol s, [.bySymbol s])
        | none =>
          match group with
          | some g => (env.posByGroup g, [.byGroup g])
          | none => (env.posAll, [.allPositions])
    let rows := fetched.1.getD []
    let result :=
      match order_type with
      | none => rows
      | some v =>
        if rows.isEmpty then rows
        else rows.filter (fun r => some r.type_code == orderTypeFilterCode v)
    (result, fetched.2)

/-! ### Theorems: enumeration layer -/

/-- C8: the `OrderType` mapping round-trips in both directions: for every
defined member, `to_code (to_string code) = code`, and whenever `to_code`
resolves a name (in any letter case) to a code, `to_string` maps that code
back to the upper-casing of the name, which is the canonical member name. -/
theorem order_type_round_trip :
    (∀ t ∈ OrderType.members,
      OrderType.to_code (.str (OrderType.to_string t.value none)) none = some t.value) ∧
    (∀ (s : String) (c : Int),
      OrderType.to_code (.str s) none = some c →
      OrderType.to_string c none = pyUpper s) := by
  constructor
  · intro t ht
    fin_cases ht <;> decide
  · intro s c h
    simp only [OrderType.to_code] at h
    cases hf : OrderType.members.find? (fun t => t.memberName == pyUpper s) with
    | none => rw [hf] at h; exact Option.noConfusion h
    | some t =>
      rw [hf] at h
      have hc : t.value = c := Option.some.inj h
      have hs : t.memberName = pyUpper s := by
        have hp := List.find?_some hf
        simpa using hp
      rw [← hc, ← hs]
      cases t <;> decide

/-- C8 witness: the round trip at the member `BUY` and at the lower-case
name "buy". -/
theorem order_type_round_trip_witness :
    OrderType.to_code (.str (OrderType.to_string OrderType.BUY.value none)) none
      = some OrderType.BUY.value ∧
    OrderType.to_string 0 none = pyUpper "buy" :=
  ⟨order_type_round_trip.1 OrderType.BUY (by decide),
   order_type_round_trip.2 "buy" 0 (by decide)⟩

/-- C9: for every integer code that is no defined member's value, the
code-to-name lookup with no default returns the literal prefix "UNKNOWN_"
followed by the code's decimal rendering. -/
theorem unknown_code_label (code : Int)
    (h : code ∉ OrderType.members.map OrderType.value) :
    OrderType.to_string code none = "UNKNOWN_" ++ toString code := by
  unfold OrderType.to_string
  have hf : OrderType.members.find? (fun t => t.value == code) = none := by
    apply List.find?_eq_none.mpr
    intro t ht hbeq
    exact h (List.mem_map.mpr ⟨t, ht, by simpa using hbeq⟩)
  rw [hf]

/-- C9 witness: the unknown code 42 maps to "UNKNOWN_42". -/
theorem unknown_code_label_witness :
    OrderType.to_string 42 none = "UNKNOWN_" ++ toString (42 : Int) :=
  unknown_code_label 42 (by decide)

/-- C10: `OrderType.to_code` is total over arbitrary inputs — any value that
is not a string, and any string whose upper-casing is no defined member
name, yields the caller-supplied default; and a numeric code comes back only
for a defined name in some letter case. -/
theorem to_code_total :
    (∀ (v : PyVal) (d : Option Int),
      (∀ s : String, v = .str s → pyUpper s ∉ OrderType.members.map OrderType.memberName) →
      OrderType.to_code v d = d) ∧
    (∀ (v : PyVal) (c : Int),
      OrderType.to_code v none = some c →
      ∃ (s : String) (t : OrderType), v = .str s ∧ t ∈ OrderType.members ∧
        t.memberName = pyUpper s ∧ c = t.value) := by
  constructor
  · intro v d hv
    cases v with
    | str s =>
      simp only [OrderType.to_code]
      have hf : OrderType.members.find? (fun t => t.memberName == pyUpper s) = none := by
        apply List.find?_eq_none.mpr
        intro t ht hbeq
        exact hv s rfl (List.mem_map.mpr ⟨t, ht, by simpa using hbeq⟩)
      rw [hf]
    | intv n => rfl
    | otype t => rfl
    | action a => rfl
    | noneV => rfl
  · intro v c h
    cases v with
    | str s =>
      simp only [OrderType.to_code] at h
      cases hf : OrderType.members.find? (fun t => t.memberName == pyUpper s) with
      | none => rw [hf] at h; exact Option.noConfusion h
      | some t =>
        rw [hf] at h
        exact ⟨s, t, rfl, List.mem_of_find?_eq_some hf,
          by simpa using List.find?_some hf, (Option.some.inj h).symm⟩
    | intv n => exact Option.noConfusion h
    | otype t => exact Option.noConfusion h
    | action a => exact Option.noConfusion h
    | noneV => exact Option.noConfusion h

/-- C10 witness: a non-string input returns the supplied default, and the
name "buy" resolves to a defined member. -/
theorem to_code_total_witness :
    OrderType.to_code (.intv 5) (some 99) = some 99 ∧
    ∃ (s : String) (t : OrderType), PyVal.str "buy" = .str s ∧
      t ∈ OrderType.members ∧ t.memberName = pyUpper s ∧ (0 : Int) = t.value :=
  ⟨to_code_total.1 (.intv 5) (some 99) (fun _ hs => PyVal.noConfusion hs),
   to_code_total.2 (.str "buy") 0 (by decide)⟩

/-! ### Theorems: `send_order` -/

/-- The stop-loss/take-profit ordering check of `send_order` passes: the
buy-side branch finds no violation on buy-side order types and the sell-side
branch none on sell-side order types. -/
def sltpPass (t : OrderType) (price stop_loss take_profit : ℚ) : Prop :=
  (t ∈ [OrderType.BUY, OrderType.BUY_LIMIT, OrderType.BUY_STOP] →
    stop_loss < price ∧ price < take_profit ∧ stop_loss ≤ take_profit) ∧
  (t ∈ [OrderType.SELL, OrderType.SELL_LIMIT, OrderType.SELL_STOP] →
    price < stop_loss ∧ take_profit < price ∧ take_profit ≤ stop_loss)

/-- When every validation step passes, `send_order` reduces to its action
dispatch. -/
theorem send_order_valid (env : Env) (action : TradeRequestActions)
    (symbol : String) (volume : ℚ) (order_type : OrderType)
    (price stop_loss take_profit : ℚ) (deviation : Int) (comment : String)
    (hasExpiration : Bool)
    (h1 : env.symbolsCount ≠ 0) (h2 : env.selectOk = true)
    (h3 : ¬(volume ≤ 0 ∨ volume > 100))
    (h4 : sltpPass order_type price stop_loss take_profit) :
    send_order env action symbol volume order_type price stop_loss take_profit
        deviation comment hasExpiration
      = send_order_dispatch env action symbol volume order_type price stop_loss
          take_profit deviation comment hasExpiration := by
  unfold send_order
  rw [if_neg h1, if_neg (by simp [h2]), if_neg h3]
  by_cases hb : order_type ∈ [OrderType.BUY, OrderType.BUY_LIMIT, OrderType.BUY_STOP]
  · obtain ⟨hsl, htp, hst⟩ := h4.1 hb
    rw [if_pos hb, if_neg (not_le.mpr hsl), if_neg (not_le.mpr htp),
      if_neg (not_lt.mpr hst)]
  · rw [if_neg hb]
    by_cases hs : order_type ∈ [OrderType.SELL, OrderType.SELL_LIMIT, OrderType.SELL_STOP]
    · obtain ⟨hsl, htp, hst⟩ := h4.2 hs
      rw [if_pos hs, if_neg (not_le.mpr hsl), if_neg (not_le.mpr htp),
        if_neg (not_lt.mpr hst)]
    · rw [if_neg hs]

/-- C1: evaluation of `send_order` at buy-side intents whose stop-loss and
take-profit are both zero.  The ordering check has no zero-value guard, so
with a valid symbol and volume a BUY intent with stop-loss = 0 and
take-profit = 0 is rejected ("Take profit must be above the price" when the
price is positive, "Stop loss must be below the price" at the default price
0.0) instead of passing the check unconditionally. -/
theorem buy_zero_sltp_rejected :
    send_order ⟨1, true, none, 0, ""⟩ .DEAL "EURUSD" 1 .BUY 100 0 0 20 "" false
      = noSend (reject "Take profit must be above the price") ∧
    send_order ⟨1, true, none, 0, ""⟩ .DEAL "EURUSD" 1 .BUY 0 0 0 20 "" false
      = noSend (reject "Stop loss must be below the price") ∧
    send_order ⟨1, true, none, 0, ""⟩ .PENDING "EURUSD" 1 .BUY_LIMIT 100 0 0 20 "" false
      = noSend (reject "Take profit must be above the price") := by
  refine ⟨by decide, by decide, by decide⟩

/-- C2: evaluation of the MARKET_DEAL path at a BUY and a SELL intent that
pass every validation step.  The request dictionary of the DEAL branch is
built from the names `sl` and `tp`, which are bound nowhere in `send_order`
(its parameters are `stop_loss` and `take_profit`), so the call raises
`NameError` before `mt5.order_send` is ever invoked — no request reaches the
gateway and no `OrderOutcome` dictionary is returned. -/
theorem deal_branch_name_error :
    send_order ⟨1, true, none, 0, ""⟩ .DEAL "EURUSD" 1 .BUY 100 99 101 20 "" false
      = { outcome := .raised (.nameError "sl"), sends := [] } ∧
    send_order ⟨1, true, none, 0, ""⟩ .DEAL "EURUSD" 1 .SELL 100 101 99 20 "" false
      = { outcome := .raised (.nameError "sl"), sends := [] } :=
  ⟨by decide, by decide⟩

/-- C7: the volume check of `send_order` accepts exactly the volumes in
(0, 100]: over a valid symbol, any volume outside that interval is rejected
with the "Invalid volume" outcome and no request reaches the gateway, while
any volume inside it proceeds past the check; in particular 0, 100.0001 and
-1 are rejected while 100 and 0.01 pass. -/
theorem volume_check_boundary :
    (∀ v : ℚ,
      send_order ⟨1, true, none, 0, ""⟩ .SLTP "EURUSD" v .BUY 100 99 101 20 "" false
        = if 0 < v ∧ v ≤ 100 then noSend unknownErrorOutcome
          else noSend (reject "Invalid volume")) ∧
    send_order ⟨1, true, none, 0, ""⟩ .SLTP "EURUSD" 0 .BUY 100 99 101 20 "" false
      = noSend (reject "Invalid volume") ∧
    send_order ⟨1, true, none, 0, ""⟩ .SLTP "EURUSD" 100.0001 .BUY 100 99 101 20 "" false
      = noSend (reject "Invalid volume") ∧
    send_order ⟨1, true, none, 0, ""⟩ .SLTP "EURUSD" (-1) .BUY 100 99 101 20 "" false
      = noSend (reject "Invalid volume") ∧
    send_order ⟨1, true, none, 0, ""⟩ .SLTP "EURUSD" 100 .BUY 100 99 101 20 "" false
      = noSend unknownErrorOutcome ∧
    send_order ⟨1, true, none, 0, ""⟩ .SLTP "EURUSD" 0.01 .BUY 100 99 101 20 "" false
      = noSend unknownErrorOutcome := by
  have H : ∀ v : ℚ,
      send_order ⟨1, true, none, 0, ""⟩ .SLTP "EURUSD" v .BUY 100 99 101 20 "" false
        = if 0 < v ∧ v ≤ 100 then noSend unknownErrorOutcome
          else noSend (reject "Invalid volume") := by
    intro v
    unfold send_order
    rw [if_neg (by decide), if_neg (by decide)]
    by_cases hv : v ≤ 0 ∨ v > 100
    · rw [if_pos hv, if_neg (show ¬(0 < v ∧ v ≤ 100) by
        rcases hv with h | h
        · exact fun hc => absurd hc.1 (not_lt.mpr h)
        · exact fun hc => absurd hc.2 (not_le.mpr h))]
    · rw [if_neg hv, if_pos (by decide), if_neg (by norm_num), if_neg (by norm_num),
        if_neg (by norm_num), if_pos (by push_neg at hv; exact hv)]
      rfl
  refine ⟨H, ?_, ?_, ?_, ?_, ?_⟩
  · have h := H 0
    rwa [if_neg (by norm_num)] at h
  · have h := H 100.0001
    rwa [if_neg (by norm_num)] at h
  · have h := H (-1)
    rwa [if_neg (by norm_num)] at h
  · have h := H 100
    rwa [if_pos (by norm_num)] at h
  · have h := H 0.01
    rwa [if_pos (by norm_num)] at h

/-- C4: on the PENDING path with an allowed order type, when a live quote is
available the price-vs-market consistency check runs before submission —
BUY_LIMIT above ask and BUY_STOP below ask are rejected with the above-ask
message, SELL_LIMIT below bid and SELL_STOP above bid with the below-bid
message, and in every rejection nothing reaches the gateway — while with no
quote the check is skipped and the request is submitted with the outcome
read from the last-error channel. -/
theorem pending_market_consistency (env : Env) (symbol : String) (volume : ℚ)
    (order_type : OrderType) (price stop_loss take_profit : ℚ)
    (deviation : Int) (comment : String) (hasExpiration : Bool) (t : Tick)
    (h1 : env.symbolsCount ≠ 0) (h2 : env.selectOk = true)
    (h3 : ¬(volume ≤ 0 ∨ volume > 100))
    (h4 : sltpPass order_type price stop_loss take_profit)
    (hmem : order_type ∈ [OrderType.BUY_LIMIT, OrderType.SELL_LIMIT,
      OrderType.BUY_STOP, OrderType.SELL_STOP]) :
    (env.tick = some t →
      ((order_type = .BUY_LIMIT ∧ price > t.ask) ∨
          (order_type = .BUY_STOP ∧ price < t.ask) →
        send_order env .PENDING symbol volume order_type price stop_loss
            take_profit deviation comment hasExpiration
          = noSend (reject "Invalid price, must be above current ask")) ∧
      ((order_type = .SELL_LIMIT ∧ price < t.bid) ∨
          (order_type = .SELL_STOP ∧ price > t.bid) →
        send_order env .PENDING symbol volume order_type price stop_loss
            take_profit deviation comment hasExpiration
          = noSend (reject "Invalid price, must be below current bid"))) ∧
    (env.tick = none →
      send_order env .PENDING symbol volume order_type price stop_loss
          take_profit deviation comment hasExpiration
        = { outcome := .returned (submitOutcome env),
            sends := [{ action := .PENDING, symbol := symbol, volume := volume,
                        otype := order_type, price := price, sl := stop_loss,
                        tp := take_profit, deviation := deviation,
                        comment := if comment = "" then "MCP" else comment,
                        type_time := if hasExpiration then 2 else 0,
                        type_filling := 0 }] }) := by
  have hd := send_order_valid env .PENDING symbol volume order_type price
    stop_loss take_profit deviation comment hasExpiration h1 h2 h3 h4
  rw [hd]
  fin_cases hmem
  · refine ⟨fun ht => ⟨fun hv => ?_, fun hv => ?_⟩, fun ht => ?_⟩
    · rcases hv with ⟨_, hp⟩ | ⟨he, _⟩
      · simp only [send_order_dispatch, ht]
        rw [if_neg (by decide), if_pos hp]
      · exact OrderType.noConfusion he
    · rcases hv with ⟨he, _⟩ | ⟨he, _⟩ <;> exact OrderType.noConfusion he
    · simp only [send_order_dispatch, ht]
      rw [if_neg (by decide)]
  · refine ⟨fun ht => ⟨fun hv => ?_, fun hv => ?_⟩, fun ht => ?_⟩
    · rcases hv with ⟨he, _⟩ | ⟨he, _⟩ <;> exact OrderType.noConfusion he
    · rcases hv with ⟨_, hp⟩ | ⟨he, _⟩
      · simp only [send_order_dispatch, ht]
        rw [if_neg (by decide), if_pos hp]
      · exact OrderType.noConfusion he
    · simp only [send_order_dispatch, ht]
      rw [if_neg (by decide)]
  · refine ⟨fun ht => ⟨fun hv => ?_, fun hv => ?_⟩, fun ht => ?_⟩
    · rcases hv with ⟨he, _⟩ | ⟨_, hp⟩
      · exact OrderType.noConfusion he
      · simp only [send_order_dispatch, ht]
        rw [if_neg (by decide), if_pos hp]
    · rcases hv with ⟨he, _⟩ | ⟨he, _⟩ <;> exact OrderType.noConfusion he
    · simp only [send_order_dispatch, ht]
      rw [if_neg (by decide)]
  · refine ⟨fun ht => ⟨fun hv => ?_, fun hv => ?_⟩, fun ht => ?_⟩
    · rcases hv with ⟨he, _⟩ | ⟨he, _⟩ <;> exact OrderType.noConfusion he
    · rcases hv with ⟨he, _⟩ | ⟨_, hp⟩
      · exact OrderType.noConfusion he
      · simp only [send_order_dispatch, ht]
        rw [if_neg (by decide), if_pos hp]
    · simp only [send_order_dispatch, ht]
      rw [if_neg (by decide)]

/-- C4 witness: a SELL_LIMIT pending intent priced below the live bid is
rejected with the below-bid message. -/
theorem pending_market_consistency_witness :
    send_order ⟨1, true, some ⟨10, 11⟩, 0, ""⟩ .PENDING "EURUSD" 1 .SELL_LIMIT
        9 12 5 20 "" false
      = noSend (reject "Invalid price, must be below current bid") :=
  ((pending_market_consistency ⟨1, true, some ⟨10, 11⟩, 0, ""⟩ "EURUSD" 1
      .SELL_LIMIT 9 12 5 20 "" false ⟨10, 11⟩ (by decide) rfl (by decide)
      ⟨fun h => absurd h (by decide), fun _ => by decide⟩ (by decide)).1
    rfl).2 (Or.inl ⟨rfl, by decide⟩)

/-! ### Theorems: `close_all_profittable_positions` -/

/-- C5 counterexample: one retained position whose close fails (the oracle
answers `false`, i.e. zero closes succeed) is still counted — the summary
says "Close 1 profittable positions success", not a count of successful
closes, and its text is not "Close 0 profittable positions". -/
theorem close_all_counts_failed_close :
    close_all_profittable_positions (fun _ => false) [⟨1, 5⟩]
      = ({ error := false, message := "Close 1 profittable positions success" }, [1]) := by
  decide

/-- C5 amended: the aggregate retains exactly the positions with
non-negative profit, calls the single-position close once per retained
position in order, ignores the individual close results, counts every
attempted close, and always reports `error = False` with the message
"Close {count} profittable positions success"; with zero eligible positions
the message is "Close 0 profittable positions success" and no close call is
made. -/
theorem close_all_best_effort :
    (∀ (ok : Nat → Bool) (positions : List Position),
      (close_all_profittable_positions ok positions).2
          = (positions.filter (fun p => p.profit ≥ 0)).map (fun p => p.id) ∧
      (close_all_profittable_positions ok positions).1.error = false ∧
      (close_all_profittable_positions ok positions).1.message
          = "Close " ++ toString (positions.filter (fun p => p.profit ≥ 0)).length
              ++ " profittable positions success") ∧
    close_all_profittable_positions (fun _ => true) [⟨7, -1⟩]
      = ({ error := false, message := "Close 0 profittable positions success" }, []) := by
  refine ⟨fun ok positions => ⟨rfl, rfl, ?_⟩, by decide⟩
  simp [close_all_profittable_positions]

/-! ### Theorems: `MT5Orders._getPositions` -/

/-- C6 counterexample: a ticket supplied together with a group that resolves
to two instruments.  The claim says the call returns an empty result without
querying by ticket; the code only rejects a group with zero matches, so here
it queries the gateway by ticket and returns the fetched row. -/
theorem ticket_group_precheck_counterexample :
    getPositions
      { symbolsCount := fun _ => 2,
        posByTicket := fun _ => some [⟨7, 0⟩],
        posBySymbol := fun _ => some [],
        posByGroup := fun _ => some [],
        posAll := some [] }
      (some (.intv 7)) none (some "EU*") none
      = ([⟨7, 0⟩], [.byTicket 7]) := by
  decide

/-- C6 amended: when a ticket is supplied, a truthy symbol name resolving to
anything other than exactly one instrument, or a truthy group resolving to
zero instruments, returns an empty result without any gateway query; when
the pre-checks pass, the fetch queries the gateway by ticket alone (a
non-numeric ticket string returning an empty result with no query). -/
theorem ticket_precheck (env : QueryEnv) (tk : TicketArg)
    (symbol_name group : Option String) (order_type : Option PyVal) :
    (strTruthy symbol_name = true →
      env.symbolsCount (symbol_name.getD "") ≠ 1 →
      getPositions env (some tk) symbol_name group order_type = ([], [])) ∧
    ((strTruthy symbol_name = true → env.symbolsCount (symbol_name.getD "") = 1) →
      strTruthy group = true → env.symbolsCount (group.getD "") = 0 →
      getPositions env (some tk) symbol_name group order_type = ([], [])) ∧
    ((strTruthy symbol_name = true → env.symbolsCount (symbol_name.getD "") = 1) →
      (strTruthy group = true → env.symbolsCount (group.getD "") ≠ 0) →
      ((∀ n : Int, tk = .intv n →
          (getPositions env (some tk) symbol_name group order_type).2 = [.byTicket n]) ∧
        (∀ (s : String) (n : Int), tk = .strv s → s.toInt? = some n →
          (getPositions env (some tk) symbol_name group order_type).2 = [.byTicket n]) ∧
        (∀ s : String, tk = .strv s → s.toInt? = none →
          getPositions env (some tk) symbol_name group order_type = ([], [])))) := by
  refine ⟨?_, ?_, ?_⟩
  · intro hs hc
    unfold getPositions
    rw [if_pos ⟨rfl, hs, hc⟩]
  · intro hpass hg hc
    unfold getPositions
    rw [if_neg (fun h => h.2.2 (hpass h.2.1)), if_pos ⟨rfl, hg, hc⟩]
  · intro hsym hgrp
    refine ⟨?_, ?_, ?_⟩
    · intro n hn
      subst hn
      unfold getPositions
      rw [if_neg (fun h => h.2.2 (hsym h.2.1)), if_neg (fun h => hgrp h.2.1 h.2.2)]
    · intro s n hs hn
      subst hs
      unfold getPositions
      rw [if_neg (fun h => h.2.2 (hsym h.2.1)), if_neg (fun h => hgrp h.2.1 h.2.2)]
      simp only [hn]
    · intro s hs hn
      subst hs
      unfold getPositions
      rw [if_neg (fun h => h.2.2 (hsym h.2.1)), if_neg (fun h => hgrp h.2.1 h.2.2)]
      simp only [hn]
      cases order_type <;> rfl

/-- C6 witness: a ticket with a three-match symbol name yields an empty
result with no gateway query, and a ticket with a one-match group proceeds
to a by-ticket query. -/
theorem ticket_precheck_witness :
    getPositions
      { symbolsCount := fun _ => 3, posByTicket := fun _ => some [],
        posBySymbol := fun _ => some [], posByGroup := fun _ => some [],
        posAll := some [] }
      (some (.intv 7)) (some "XY") none none = ([], []) ∧
    (getPositions
      { symbolsCount := fun _ => 1, posByTicket := fun _ => some [],
        posBySymbol := fun _ => some [], posByGroup := fun _ => some [],
        posAll := some [] }
      (some (.intv 7)) none (some "G") none).2 = [.byTicket 7] :=
  ⟨(ticket_precheck
      { symbolsCount := fun _ => 3, posByTicket := fun _ => some [],
        posBySymbol := fun _ => some [], posByGroup := fun _ => some [],
        posAll := some [] }
      (.intv 7) (some "XY") none none).1 (by decide) (by decide),
   ((ticket_precheck
      { symbolsCount := fun _ => 1, posByTicket := fun _ => some [],
        posBySymbol := fun _ => some [], posByGroup := fun _ => some [],
        posAll := some [] }
      (.intv 7) none (some "G") none).2.2
      (fun h => absurd h (by decide)) (fun _ => by decide)).1 7 rfl⟩

/-! ### Theorems: enumeration validation entry point and its use -/

/-- C3 counterexample: an unrecognized action string makes `send_order` raise
the `InvalidEnumValue` error to the caller (nothing was sent and no outcome
dictionary is returned) — the failure is not wrapped as a non-success
outcome, because the two `validate` calls sit outside any `try`/`except`. -/
theorem invalid_action_propagates :
    send_order_full ⟨1, true, none, 0, ""⟩ (.str "FOO") "EURUSD" 1 (.str "BUY")
        100 99 101 20 "" false
      = { outcome := .raised (.invalidEnumValue "invalid action"), sends := [] } := by
  decide

/-- C3 amended: the validation entry point (modelled from the spec) returns
the canonical typed member for an already-typed value, a defined code, or a
defined name in any letter case, and fails with `InvalidEnumValue`
otherwise; `send_order` canonicalizes `action` and then `order_type` through
it before any other validation step, and an `InvalidEnumValue` failure
propagates out of `send_order` as a raised error rather than being wrapped
as a non-success outcome. -/
theorem enum_validate_first_step :
    (∀ a : TradeRequestActions, TradeRequestActions.validate (.action a) = .ok a) ∧
    (∀ a ∈ TradeRequestActions.members,
      TradeRequestActions.validate (.intv a.value) = .ok a) ∧
    (∀ (a : TradeRequestActions) (s : String), a ∈ TradeRequestActions.members →
      pyUpper s = a.memberName → TradeRequestActions.validate (.str s) = .ok a) ∧
    (∀ s : String,
      pyUpper s ∉ TradeRequestActions.members.map TradeRequestActions.memberName →
      TradeRequestActions.validate (.str s) = .err (.invalidEnumValue "invalid action")) ∧
    (∀ t : OrderType, OrderType.validate (.otype t) = .ok t) ∧
    (∀ t ∈ OrderType.members, OrderType.validate (.intv t.value) = .ok t) ∧
    (∀ (t : OrderType) (s : String), t ∈ OrderType.members →
      pyUpper s = t.memberName → OrderType.validate (.str s) = .ok t) ∧
    (∀ s : String, pyUpper s ∉ OrderType.members.map OrderType.memberName →
      OrderType.validate (.str s) = .err (.invalidEnumValue "invalid order type")) ∧
    (∀ (env : Env) (av : PyVal) (symbol : String) (volume : ℚ) (ov : PyVal)
        (price sl tp : ℚ) (dev : Int) (comment : String) (hasExp : Bool)
        (e : PyErr), TradeRequestActions.validate av = .err e →
      send_order_full env av symbol volume ov price sl tp dev comment hasExp
        = { outcome := .raised e, sends := [] }) ∧
    (∀ (env : Env) (av : PyVal) (symbol : String) (volume : ℚ) (ov : PyVal)
        (price sl tp : ℚ) (dev : Int) (comment : String) (hasExp : Bool)
        (a : TradeRequestActions) (e : PyErr),
      TradeRequestActions.validate av = .ok a → OrderType.validate ov = .err e →
      send_order_full env av symbol volume ov price sl tp dev comment hasExp
        = { outcome := .raised e, sends := [] }) := by
  refine ⟨?_, ?_, ?_, ?_, ?_, ?_, ?_, ?_, ?_, ?_⟩
  · intro a; rfl
  · intro a ha; fin_cases ha <;> decide
  · intro a s ha hs
    fin_cases ha <;>
      (simp only [TradeRequestActions.memberName] at hs;
       simp only [TradeRequestActions.validate, hs];
       decide)
  · intro s hns
    simp only [TradeRequestActions.validate]
    have hf : TradeRequestActions.members.find?
        (fun a => a.memberName == pyUpper s) = none := by
      apply List.find?_eq_none.mpr
      intro a ha hbeq
      exact hns (List.mem_map.mpr ⟨a, ha, by simpa using hbeq⟩)
    rw [hf]
  · intro t; rfl
  · intro t ht; fin_cases ht <;> decide
  · intro t s ht hs
    fin_cases ht <;>
      (simp only [OrderType.memberName] at hs;
       simp only [OrderType.validate, hs];
       decide)
  · intro s hns
    simp only [OrderType.validate]
    have hf : OrderType.members.find?
        (fun t => t.memberName == pyUpper s) = none := by
      apply List.find?_eq_none.mpr
      intro t ht hbeq
      exact hns (List.mem_map.mpr ⟨t, ht, by simpa using hbeq⟩)
    rw [hf]
  · intro env av symbol volume ov price sl tp dev comment hasExp e h
    simp only [send_order_full, h]
  · intro env av symbol volume ov price sl tp dev comment hasExp a e ha ho
    simp only [send_order_full, ha, ho]

/-- C3 witness: "deal" (lower case) canonicalizes to DEAL, the code 3 to
SELL_LIMIT, and a valid action with an unrecognized order type makes
`send_order` raise the order-type `InvalidEnumValue` error. -/
theorem enum_validate_first_step_witness :
    TradeRequestActions.validate (.str "deal") = .ok .DEAL ∧
    OrderType.validate (.intv 3) = .ok .SELL_LIMIT ∧
    send_order_full ⟨1, true, none, 0, ""⟩ (.str "PENDING") "EURUSD" 1
        (.str "nope") 100 99 101 20 "" false
      = { outcome := .raised (.invalidEnumValue "invalid order type"), sends := [] } :=
  ⟨enum_validate_first_step.2.2.1 .DEAL "deal" (by decide) (by decide),
   enum_validate_first_step.2.2.2.2.2.1 .SELL_LIMIT (by decide),
   enum_validate_first_step.2.2.2.2.2.2.2.2.2
     ⟨1, true, none, 0, ""⟩ (.str "PENDING") "EURUSD" 1 (.str "nope")
     100 99 101 20 "" false .PENDING (.invalidEnumValue "invalid order type")
     (by decide) (by decide)⟩

end MT5
